import Mathlib

/-!
Shallow embedding of the OpenHands frontend fragment:

* `useClearConversation` (src/frontend/src/hooks/mutation/use-clear-conversation.ts):
  the bounded-retry task poller inside `mutationFn` (lines 42–58), the outcome
  classification (lines 60–69), the precondition check (lines 23–25), and the
  `onSuccess` continuation (lines 77–93) with its best-effort deletion chain.
* `OpenRepositoryModal` (src/frontend/src/components/features/chat/
  open-repository-modal.tsx): the selection state machine
  (`handleRepositoryChange`, `handleBranchSelect`, `handleLaunch`, `handleClose`).

JavaScript values are modelled as follows: a possibly-absent object or string is
an `Option`; string truthiness (`!s` is true for `undefined`/`null`/`""`) is
`jsTruthy`; a thrown `Error` is a `failure` result; a settled promise is an
`Except String Unit` together with the list of effects it emitted.
-/

set_option autoImplicit false

namespace OpenHands

/-- A StartTask snapshot as consumed by the poller: the fields of the backend
task object that lines 42–69 of use-clear-conversation.ts read. -/
structure StartTask where
  id : String
  status : String
  app_conversation_id : Option String
  detail : Option String
deriving DecidableEq, Repr

/-- JavaScript truthiness of an optional string: `undefined`, `null` and `""`
are falsy, every other string is truthy. -/
def jsTruthy : Option String → Bool
  | none => false
  | some s => !(s == "")

/-- The while-guard's terminal-status test,
`["READY", "ERROR"].includes(task.status)` (lines 47–50). -/
def isTerminal (status : String) : Bool :=
  ["READY", "ERROR"].contains status

/-- The polling while-loop of `mutationFn` (lines 47–58).  The k-th call of
`V1ConversationService.getStartTask` returns `responses k`; the initial fetch
(line 42) is call number 0 and the fetch of loop iteration `attempts + 1` is
call number `attempts + 1`.  The third argument is the fuel
`maxAttempts - attempts`, so the source guard `attempts < maxAttempts` is
"fuel is nonzero" here.  Returns the final `task` together with the final
`attempts` counter (= the number of in-loop fetches). -/
def pollLoop (responses : Nat → Option StartTask) :
    Option StartTask → Nat → Nat → Option StartTask × Nat
  | none, attempts, _ => (none, attempts)
  | some t, attempts, 0 => (some t, attempts)
  | some t, attempts, remaining + 1 =>
      if isTerminal t.status then (some t, attempts)
      else pollLoop responses (responses (attempts + 1)) (attempts + 1) remaining

/-- The generic failure text of line 62. -/
def defaultFailureMessage : String := "Failed to create new conversation in sandbox"

/-- The failure reason `task?.detail || "Failed to create new conversation in
sandbox"` of line 62: JavaScript `||` falls through on an absent and on an
empty `detail`. -/
def failReason : Option StartTask → String
  | none => defaultFailureMessage
  | some t =>
      match t.detail with
      | some d => if d == "" then defaultFailureMessage else d
      | none => defaultFailureMessage

/-- Outcome of the poll phase (spec §3 PollOutcome; the observed code never
produces a distinct TimedOut variant). -/
inductive PollOutcome where
  | Ready (conversationId : String)
  | Failed (reason : String)
deriving DecidableEq, Repr

/-- The classification after loop exit (lines 60–69):
`if (!task || task.status !== "READY" || !task.app_conversation_id) throw
new Error(task?.detail || ...)` else return `task.app_conversation_id`. -/
def classify : Option StartTask → PollOutcome
  | none => PollOutcome.Failed (failReason none)
  | some t =>
      if t.status == "READY" && jsTruthy t.app_conversation_id then
        PollOutcome.Ready (t.app_conversation_id.getD "")
      else
        PollOutcome.Failed (failReason (some t))

/-- The whole poll phase of `mutationFn`: initial fetch (line 42), loop
(lines 47–58), classification (lines 60–69).  The second component is the
total number of `getStartTask` calls: the initial fetch plus the in-loop
fetches. -/
def runPoller (responses : Nat → Option StartTask) (maxAttempts : Nat) :
    PollOutcome × Nat :=
  let exit := pollLoop responses (responses 0) 0 maxAttempts
  (classify exit.1, exit.2 + 1)

/-- The two fields of the active conversation that `mutationFn` reads
(lines 23, 37, 68). -/
structure Conversation where
  conversation_id : Option String
  sandbox_id : Option String
deriving DecidableEq, Repr

/-- The external collaborators of `mutationFn`: the id of the task handle
returned by `createConversation`, and the `getStartTask` responses in call
order. -/
structure CloneEnv where
  startTaskId : String
  responses : Nat → Option StartTask

/-- Result of `mutationFn`: a thrown `Error` or the returned record
(lines 24, 61–63, 66–69). -/
inductive MutationResult where
  | failure (message : String)
  | success (newConversationId : String) (oldConversationId : String)
deriving DecidableEq, Repr

/-- `mutationFn`'s result together with how many network calls it made. -/
structure MutationTrace where
  result : MutationResult
  createConversationCalls : Nat
  getStartTaskCalls : Nat
deriving DecidableEq, Repr

/-- `mutationFn` (lines 22–70): the precondition check
`!conversation?.conversation_id || !conversation.sandbox_id` throws before any
network call; otherwise one `createConversation` call, then the poll phase
with `maxAttempts = 60`. -/
def mutationFn (conversation : Option Conversation) (env : CloneEnv) :
    MutationTrace :=
  match conversation with
  | none => ⟨MutationResult.failure "No active conversation or sandbox", 0, 0⟩
  | some c =>
      if !jsTruthy c.conversation_id || !jsTruthy c.sandbox_id then
        ⟨MutationResult.failure "No active conversation or sandbox", 0, 0⟩
      else
        let poll := runPoller env.responses 60
        match poll.1 with
        | PollOutcome.Failed reason =>
            ⟨MutationResult.failure reason, 1, poll.2⟩
        | PollOutcome.Ready newId =>
            ⟨MutationResult.success newId (c.conversation_id.getD ""), 1, poll.2⟩

/-- Observable side effects of the `onSuccess` continuation (lines 77–93). -/
inductive Effect where
  | dismissToast (toastId : String)
  | showSuccessToast
  | navigate (path : String)
  | deleteUserConversation (conversationId : String)
  | invalidateQueries (queryKey : List String)
deriving DecidableEq, Repr

/-- Promise `.catch(() => {})` (line 84): a rejection is replaced by the
handler's fulfilled result, a fulfillment passes through. -/
def promiseCatch (p : Except String Unit) : Except String Unit :=
  match p with
  | Except.ok u => Except.ok u
  | Except.error _ => Except.ok ()

/-- Promise `.finally(cb)` (lines 85–92): the callback's effects run whether
the chain is fulfilled or rejected, and the settlement passes through. -/
def promiseFinally (p : Except String Unit) (effects : List Effect) :
    List Effect × Except String Unit :=
  match p with
  | Except.ok u => (effects, Except.ok u)
  | Except.error e => (effects, Except.error e)

/-- The two cache invalidations of lines 86–91. -/
def invalidationEffects : List Effect :=
  [Effect.invalidateQueries ["user", "conversations"],
   Effect.invalidateQueries ["v1-batch-get-app-conversations"]]

/-- `onSuccess` (lines 77–93): toast dismissal, success toast, navigation to
`/conversations/{newConversationId}`, then the background chain
`deleteUserConversation(old).catch(() => {}).finally(invalidate both keys)`.
`deleteResult` is the settlement of the deletion call; the function returns
the emitted effects in order and the settlement of the background chain. -/
def onSuccessTrace (newConversationId oldConversationId : String)
    (deleteResult : Except String Unit) : List Effect × Except String Unit :=
  let foreground : List Effect :=
    [Effect.dismissToast "clear-conversation",
     Effect.showSuccessToast,
     Effect.navigate ("/conversations/" ++ newConversationId)]
  let deletionCall : List Effect :=
    [Effect.deleteUserConversation oldConversationId]
  let caught := promiseCatch deleteResult
  let settled := promiseFinally caught invalidationEffects
  (foreground ++ deletionCall ++ settled.1, settled.2)

/-- The repository fields the modal reads (open-repository-modal.tsx
lines 81–96); the type itself lives outside this fragment in #/types/git. -/
structure GitRepository where
  id : String
  full_name : String
  git_provider : String
  main_branch : Option String
deriving DecidableEq, Repr

/-- A git branch as selected in the modal (#/types/git). -/
structure Branch where
  name : String
deriving DecidableEq, Repr

/-- The modal's selection state: the two `useState` cells of lines 31–33. -/
structure ModalState where
  selectedRepository : Option GitRepository
  selectedBranch : Option Branch
deriving DecidableEq, Repr

/-- `handleRepositoryChange` (lines 35–43): both branches overwrite both
cells, independent of the previous state. -/
def handleRepositoryChange (_s : ModalState)
    (repository : Option GitRepository) : ModalState :=
  match repository with
  | some r => { selectedRepository := some r, selectedBranch := none }
  | none => { selectedRepository := none, selectedBranch := none }

/-- `handleBranchSelect` (lines 45–47). -/
def handleBranchSelect (s : ModalState) (branch : Option Branch) : ModalState :=
  { s with selectedBranch := branch }

/-- One press of the launch button: the resulting state, the pair handed to
`onLaunch` if it was invoked, and whether `onClose` was called. -/
structure LaunchStep where
  state : ModalState
  launched : Option (GitRepository × Branch)
  closed : Bool
deriving DecidableEq, Repr

/-- `handleLaunch` (lines 49–56): guard `!selectedRepository ||
!selectedBranch` returns early; otherwise `onLaunch(repo, branch)`, reset
both cells, `onClose()`. -/
def handleLaunch (s : ModalState) : LaunchStep :=
  match s.selectedRepository, s.selectedBranch with
  | some r, some b =>
      { state := { selectedRepository := none, selectedBranch := none },
        launched := some (r, b), closed := true }
  | none, _ => { state := s, launched := none, closed := false }
  | _, none => { state := s, launched := none, closed := false }

/-- One press of the cancel button / backdrop close. -/
structure CloseStep where
  state : ModalState
  closed : Bool
deriving DecidableEq, Repr

/-- `handleClose` (lines 58–62): reset both cells, `onClose()`. -/
def handleClose (_s : ModalState) : CloseStep :=
  { state := { selectedRepository := none, selectedBranch := none },
    closed := true }

/-! ### Concrete task snapshots used as witnesses (the test suite's fixtures) -/

/-- A task that is still being worked on, with no detail. -/
def pendingTask : StartTask :=
  { id := "task-789", status := "PENDING", app_conversation_id := none,
    detail := none }

/-- The test fixture: a WORKING task with no conversation id yet. -/
def workingTask : StartTask :=
  { id := "task-789", status := "WORKING", app_conversation_id := none,
    detail := none }

/-- The test fixture: a READY task carrying `app_conversation_id
"new-conv-999"`. -/
def readyTask : StartTask :=
  { id := "task-789", status := "READY",
    app_conversation_id := some "new-conv-999", detail := none }

/-- The test fixture: an ERROR task with detail "Sandbox crashed". -/
def errorTask : StartTask :=
  { id := "task-789", status := "ERROR", app_conversation_id := none,
    detail := some "Sandbox crashed" }

/-- A response sequence: WORKING on the initial fetch, ERROR from there on. -/
def workingThenErrorResponses : Nat → Option StartTask :=
  fun k => if k == 0 then some workingTask else some errorTask

/-- A response sequence that never reaches a terminal status. -/
def pendingResponses : Nat → Option StartTask := fun _ => some pendingTask

/-- A response sequence that is READY from the very first fetch. -/
def readyResponses : Nat → Option StartTask := fun _ => some readyTask

/-- The test suite's active conversation. -/
def sampleConversation : Conversation :=
  { conversation_id := some "conv-123", sandbox_id := some "sandbox-456" }

/-- An environment whose task is READY immediately. -/
def sampleEnv : CloneEnv :=
  { startTaskId := "task-789", responses := readyResponses }

/-- A concrete repository for exercising the modal state machine. -/
def sampleRepository : GitRepository :=
  { id := "42", full_name := "octo/repo", git_provider := "github",
    main_branch := some "main" }

/-- A concrete branch for exercising the modal state machine. -/
def sampleBranch : Branch := { name := "main" }

/-! ### Helper lemmas about the poll loop -/

/-- If every fetch yields a task with a non-terminal status, the loop burns
all its fuel: it exits at the fetched task whose index equals the fuel. -/
theorem pollLoop_exhausts (responses : Nat → Option StartTask)
    (h : ∀ k, ∃ t, responses k = some t ∧ isTerminal t.status = false) :
    ∀ remaining a,
      pollLoop responses (responses a) a remaining =
        (responses (a + remaining), a + remaining) := by
  intro remaining
  induction remaining with
  | zero =>
      intro a
      obtain ⟨t, ht, _⟩ := h a
      rw [ht]
      simp [pollLoop, ht]
  | succ r ih =>
      intro a
      obtain ⟨t, ht, hnt⟩ := h a
      rw [ht]
      simp only [pollLoop, hnt, Bool.false_eq_true, if_false]
      have harith : a + 1 + r = a + (r + 1) := by omega
      rw [ih (a + 1), harith]

/-- If every fetch before index `j` yields a non-terminal task and fetch `j`
yields a terminal one, the loop exits exactly at fetch `j` (provided the fuel
reaches that far). -/
theorem pollLoop_first_terminal (responses : Nat → Option StartTask)
    (j : Nat) (t : StartTask)
    (hbefore : ∀ k, k < j → ∃ u, responses k = some u ∧ isTerminal u.status = false)
    (hterm : responses j = some t) (ht : isTerminal t.status = true) :
    ∀ remaining a, a ≤ j → j ≤ a + remaining →
      pollLoop responses (responses a) a remaining = (some t, j) := by
  intro remaining
  induction remaining with
  | zero =>
      intro a h1 h2
      have haj : a = j := by omega
      subst haj
      rw [hterm]
      simp [pollLoop]
  | succ r ih =>
      intro a h1 h2
      rcases Nat.eq_or_lt_of_le h1 with heq | hlt
      · subst heq
        rw [hterm]
        simp [pollLoop, ht]
      · obtain ⟨u, hu, hnt⟩ := hbefore a hlt
        rw [hu]
        simp only [pollLoop, hnt, Bool.false_eq_true, if_false]
        exact ih (a + 1) hlt (by omega)

/-- A non-terminal status is not "READY" (in `BEq` form, as the code tests). -/
theorem not_ready_of_not_terminal {s : String} (h : isTerminal s = false) :
    (s == "READY") = false := by
  simp only [isTerminal, List.contains, List.elem] at h
  cases hr : s == "READY" with
  | false => rfl
  | true => rw [hr] at h; exact absurd h (by simp)

/-- A task with a falsy `detail` produces the generic failure message. -/
theorem failReason_of_falsy_detail (t : StartTask)
    (h : jsTruthy t.detail = false) :
    failReason (some t) = defaultFailureMessage := by
  cases hd : t.detail with
  | none => simp [failReason, hd]
  | some d =>
      rw [hd] at h
      simp only [jsTruthy, Bool.not_eq_false'] at h
      simp [failReason, hd, h]

/-! ### Characterizing the loop-exit classification -/

/-- The guard of line 60, in positive form: the tested Boolean holds exactly
when the task is READY and carries a non-empty conversation id. -/
theorem readyCond_iff (t : StartTask) :
    (t.status == "READY" && jsTruthy t.app_conversation_id) = true ↔
      ∃ cid, t.status = "READY" ∧ t.app_conversation_id = some cid ∧ cid ≠ "" := by
  cases hid : t.app_conversation_id with
  | none =>
      simp [jsTruthy, hid]
  | some s =>
      constructor
      · intro h
        simp only [Bool.and_eq_true, beq_iff_eq, jsTruthy, hid,
          Bool.not_eq_false'] at h
        exact ⟨s, h.1, rfl, by simpa using h.2⟩
      · rintro ⟨cid, hs, hcid, hne⟩
        injection hcid with hcid
        subst hcid
        simp [jsTruthy, hs, hne]

/-- Evaluation: a READY task with a non-empty id classifies as `Ready`. -/
theorem classify_some_ready (t : StartTask) (s : String)
    (hs : t.status = "READY") (hid : t.app_conversation_id = some s)
    (hne : s ≠ "") : classify (some t) = PollOutcome.Ready s := by
  have hsb : (s == "") = false := by simp [hne]
  simp [classify, hs, hid, jsTruthy, hsb]

/-- Evaluation: when the guard of line 60 fires, the classification is a
failure carrying `failReason`. -/
theorem classify_some_notReady (t : StartTask)
    (h : (t.status == "READY" && jsTruthy t.app_conversation_id) = false) :
    classify (some t) = PollOutcome.Failed (failReason (some t)) := by
  simp [classify, h]

/-- `classify` yields `Ready cid` exactly for a task that exists, is READY,
and carries `cid` as its non-empty conversation id. -/
theorem classify_ready_iff (task : Option StartTask) (conversationId : String) :
    classify task = PollOutcome.Ready conversationId ↔
      ∃ t, task = some t ∧ t.status = "READY" ∧
        t.app_conversation_id = some conversationId ∧ conversationId ≠ "" := by
  constructor
  · intro h
    cases task with
    | none => simp [classify] at h
    | some t =>
        cases hc : (t.status == "READY" && jsTruthy t.app_conversation_id) with
        | false =>
            rw [classify_some_notReady t hc] at h
            exact absurd h (by simp)
        | true =>
            obtain ⟨cid, hs, hcid, hne⟩ := (readyCond_iff t).mp hc
            rw [classify_some_ready t cid hs hcid hne] at h
            have : cid = conversationId := by injection h
            subst this
            exact ⟨t, rfl, hs, hcid, hne⟩
  · rintro ⟨t, rfl, hs, hid, hne⟩
    exact classify_some_ready t conversationId hs hid hne

/-- `classify` never invents a reason: a `Failed r` outcome always has
`r = failReason task`, and the READY-with-id condition fails. -/
theorem classify_failed_iff (task : Option StartTask) (r : String) :
    classify task = PollOutcome.Failed r ↔
      (¬ ∃ t cid, task = some t ∧ t.status = "READY" ∧
          t.app_conversation_id = some cid ∧ cid ≠ "") ∧
      r = failReason task := by
  constructor
  · intro h
    constructor
    · rintro ⟨t, cid, rfl, hs, hcid, hne⟩
      rw [classify_some_ready t cid hs hcid hne] at h
      exact absurd h (by simp)
    · cases task with
      | none =>
          have : classify none = PollOutcome.Failed (failReason none) := rfl
          rw [this] at h
          injection h with h
          exact h.symm
      | some t =>
          cases hc : (t.status == "READY" && jsTruthy t.app_conversation_id) with
          | false =>
              rw [classify_some_notReady t hc] at h
              injection h with h
              exact h.symm
          | true =>
              obtain ⟨cid, hs, hcid, hne⟩ := (readyCond_iff t).mp hc
              rw [classify_some_ready t cid hs hcid hne] at h
              exact absurd h (by simp)
  · rintro ⟨hno, rfl⟩
    cases task with
    | none => rfl
    | some t =>
        cases hc : (t.status == "READY" && jsTruthy t.app_conversation_id) with
        | false => exact classify_some_notReady t hc
        | true =>
            obtain ⟨cid, hs, hcid, hne⟩ := (readyCond_iff t).mp hc
            exact absurd ⟨t, cid, rfl, hs, hcid, hne⟩ hno

/-- The failure reason of line 62, characterized: the task's detail when it
is present and non-empty, the generic message otherwise. -/
theorem failReason_spec (task : Option StartTask) :
    (∃ t d, task = some t ∧ t.detail = some d ∧ d ≠ "" ∧ failReason task = d) ∨
    (failReason task = defaultFailureMessage ∧
      ¬ ∃ t d, task = some t ∧ t.detail = some d ∧ d ≠ "") := by
  cases task with
  | none => right; simp [failReason]
  | some t =>
      cases hd : t.detail with
      | none => right; simp [failReason, hd]
      | some d =>
          by_cases hne : d = ""
          · subst hne
            right
            constructor
            · simp [failReason, hd]
            · rintro ⟨u, e, hu, he, hene⟩
              obtain rfl : u = t := by cases hu; rfl
              rw [hd] at he
              cases he
              exact hene rfl
          · left
            exact ⟨t, d, rfl, hd, hne, by simp [failReason, hd, hne]⟩

/-! ### Claim theorems -/

/-- C1: for every poll loop exit state, the outcome is `Ready cid` exactly
when the final task exists, its status is READY, and it carries `cid` as a
non-empty `app_conversation_id`; in every other exit state the operation
fails, the reason being the task's detail when one is present and non-empty
(the JavaScript-truthy sense of "available", matching the `||` of line 62)
and otherwise exactly "Failed to create new conversation in sandbox". -/
theorem poll_exit_classification (responses : Nat → Option StartTask)
    (m : Nat) (exit : Option StartTask × Nat)
    (hexit : pollLoop responses (responses 0) 0 m = exit) :
    (∀ cid, (runPoller responses m).1 = PollOutcome.Ready cid ↔
        ∃ t, exit.1 = some t ∧ t.status = "READY" ∧
          t.app_conversation_id = some cid ∧ cid ≠ "") ∧
    (∀ r, (runPoller responses m).1 = PollOutcome.Failed r ↔
        (¬ ∃ t cid, exit.1 = some t ∧ t.status = "READY" ∧
            t.app_conversation_id = some cid ∧ cid ≠ "") ∧
        ((∃ t d, exit.1 = some t ∧ t.detail = some d ∧ d ≠ "" ∧ r = d) ∨
         (r = defaultFailureMessage ∧
          ¬ ∃ t d, exit.1 = some t ∧ t.detail = some d ∧ d ≠ ""))) := by
  have hrp : (runPoller responses m).1 = classify exit.1 := by
    simp [runPoller, hexit]
  constructor
  · intro cid
    rw [hrp]
    exact classify_ready_iff exit.1 cid
  · intro r
    rw [hrp, classify_failed_iff]
    apply and_congr_right
    intro _
    rcases failReason_spec exit.1 with ⟨t, d, hts, hd, hne, hfd⟩ | ⟨hdef, hnone⟩
    · constructor
      · intro hr
        exact Or.inl ⟨t, d, hts, hd, hne, by rw [hr, hfd]⟩
      · rintro (⟨u, e, hus, he, hene, hre⟩ | ⟨hrd, hnone2⟩)
        · rw [hts] at hus
          injection hus with hus
          subst hus
          rw [hd] at he
          injection he with he
          subst he
          rw [hre, hfd]
        · exact absurd ⟨t, d, hts, hd, hne⟩ hnone2
    · constructor
      · intro hr
        exact Or.inr ⟨by rw [hr, hdef], hnone⟩
      · rintro (⟨u, e, hus, he, hene, hre⟩ | ⟨hrd, _⟩)
        · exact absurd ⟨u, e, hus, he, hene⟩ hnone
        · rw [hrd, hdef]

/-- Witness for C1: on a sequence that is READY at once with id
"new-conv-999", the poller's outcome is `Ready "new-conv-999"`. -/
theorem poll_exit_classification_witness :
    (runPoller readyResponses 60).1 = PollOutcome.Ready "new-conv-999" :=
  ((poll_exit_classification readyResponses 60 (some readyTask, 0)
      (by decide)).1 "new-conv-999").mpr ⟨readyTask, rfl, rfl, rfl, by decide⟩

/-- C2 counterexample: on a sequence that never reaches a terminal status the
poller does return `Failed` with the default message, but only after 61
`getStartTask` calls (the initial fetch of line 42 plus the 60 in-loop
fetches), not after exactly 60 as claimed. -/
theorem sixty_fetch_claim_counterexample :
    (runPoller pendingResponses 60).1 =
      PollOutcome.Failed defaultFailureMessage ∧
    (runPoller pendingResponses 60).2 = 61 ∧
    (runPoller pendingResponses 60).2 ≠ 60 := by
  have hall : ∀ k, ∃ t, pendingResponses k = some t ∧
      isTerminal t.status = false :=
    fun _ => ⟨pendingTask, rfl, by decide⟩
  have hx := pollLoop_exhausts pendingResponses hall 60 0
  rw [Nat.zero_add] at hx
  refine ⟨?_, ?_, ?_⟩
  · simp only [runPoller, hx]
    decide
  · simp [runPoller, hx]
  · simp [runPoller, hx]

/-- C2 (amended): on a sequence in which every fetch yields a task and no
status is ever terminal, the poller stops after exactly `maxAttempts + 1 = 61`
`getStartTask` calls (one initial fetch plus `maxAttempts` in-loop fetches)
and returns `Failed`; the reason is the last task's detail when that is
non-empty, and the default message whenever the last task's detail is
absent or empty. -/
theorem nonterminal_timeout_fetch_count (responses : Nat → Option StartTask)
    (h : ∀ k, ∃ t, responses k = some t ∧ isTerminal t.status = false) :
    (runPoller responses 60).2 = 61 ∧
    (runPoller responses 60).1 =
      PollOutcome.Failed (failReason (responses 60)) ∧
    (jsTruthy ((responses 60).bind StartTask.detail) = false →
      (runPoller responses 60).1 =
        PollOutcome.Failed defaultFailureMessage) := by
  have hx := pollLoop_exhausts responses h 60 0
  rw [Nat.zero_add] at hx
  obtain ⟨t, ht, hnt⟩ := h 60
  have hready := not_ready_of_not_terminal hnt
  have hcls : classify (responses 60) =
      PollOutcome.Failed (failReason (responses 60)) := by
    rw [ht]
    exact classify_some_notReady t (by simp [hready])
  refine ⟨?_, ?_, ?_⟩
  · simp [runPoller, hx]
  · simp only [runPoller, hx]
    exact hcls
  · intro hd
    rw [ht] at hd
    have hdef : failReason (some t) = defaultFailureMessage :=
      failReason_of_falsy_detail t hd
    simp only [runPoller, hx]
    rw [ht, classify_some_notReady t (by simp [hready]), hdef]

/-- Witness for C2 (amended): the always-PENDING sequence makes 61 fetches
and fails with the default message. -/
theorem nonterminal_timeout_fetch_count_witness :
    (runPoller pendingResponses 60).2 = 61 ∧
    (runPoller pendingResponses 60).1 =
      PollOutcome.Failed defaultFailureMessage :=
  let h := nonterminal_timeout_fetch_count pendingResponses
    (fun _ => ⟨pendingTask, rfl, by decide⟩)
  ⟨h.1, h.2.2 (by decide)⟩

/-- C3: if every fetch before index `j` observed a non-terminal task and
fetch `j` observed a terminal one, the loop exits at exactly that fetch: the
final task is the terminal observation, the in-loop fetch counter is `j`, and
the total number of `getStartTask` calls is `j + 1` — no fetch ever happens
past a terminal observation. -/
theorem poller_stops_at_first_terminal (responses : Nat → Option StartTask)
    (m j : Nat) (t : StartTask) (hjm : j ≤ m)
    (hbefore : ∀ k, k < j → ∃ u, responses k = some u ∧
        isTerminal u.status = false)
    (hterm : responses j = some t) (ht : isTerminal t.status = true) :
    pollLoop responses (responses 0) 0 m = (some t, j) ∧
    (runPoller responses m).2 = j + 1 := by
  have hl := pollLoop_first_terminal responses j t hbefore hterm ht m 0
    (Nat.zero_le _) (by omega)
  exact ⟨hl, by simp [runPoller, hl]⟩

/-- Witness for C3: WORKING then ERROR stops at the ERROR observation after
two fetches in total. -/
theorem poller_stops_at_first_terminal_witness :
    pollLoop workingThenErrorResponses (workingThenErrorResponses 0) 0 60 =
      (some errorTask, 1) ∧
    (runPoller workingThenErrorResponses 60).2 = 1 + 1 :=
  poller_stops_at_first_terminal workingThenErrorResponses 60 1 errorTask
    (by omega)
    (fun k hk => ⟨workingTask, by
        have hk0 : k = 0 := Nat.lt_one_iff.mp hk
        subst hk0
        rfl, by decide⟩)
    rfl (by decide)

/-- C4: when the active conversation is absent, or its `conversation_id` or
`sandbox_id` is falsy, `mutationFn` fails at once with the descriptive
message and performs neither a `createConversation` nor a `getStartTask`
call. -/
theorem precondition_failure_no_network (conversation : Option Conversation)
    (env : CloneEnv)
    (h : conversation = none ∨ ∃ c, conversation = some c ∧
        (jsTruthy c.conversation_id = false ∨ jsTruthy c.sandbox_id = false)) :
    mutationFn conversation env =
      ⟨MutationResult.failure "No active conversation or sandbox", 0, 0⟩ := by
  rcases h with rfl | ⟨c, rfl, hc⟩
  · rfl
  · rcases hc with hc | hc <;> simp [mutationFn, hc]

/-- Witness for C4: with no active conversation, the operation fails with no
network call. -/
theorem precondition_failure_no_network_witness :
    mutationFn none sampleEnv =
      ⟨MutationResult.failure "No active conversation or sandbox", 0, 0⟩ :=
  precondition_failure_no_network none sampleEnv (Or.inl rfl)

/-- C5: when the first observed task is already READY with
`app_conversation_id "new-conv-999"`, the operation succeeds with that id
after exactly one `createConversation` call and exactly one `getStartTask`
fetch, and the success continuation navigates to
`/conversations/new-conv-999`. -/
theorem immediate_ready_single_fetch (responses : Nat → Option StartTask)
    (t : StartTask) (oldId sandboxId startTaskId : String)
    (deleteResult : Except String Unit)
    (h0 : responses 0 = some t) (hs : t.status = "READY")
    (hid : t.app_conversation_id = some "new-conv-999")
    (hold : oldId ≠ "") (hsand : sandboxId ≠ "") :
    mutationFn (some ⟨some oldId, some sandboxId⟩) ⟨startTaskId, responses⟩ =
      ⟨MutationResult.success "new-conv-999" oldId, 1, 1⟩ ∧
    Effect.navigate "/conversations/new-conv-999" ∈
      (onSuccessTrace "new-conv-999" oldId deleteResult).1 := by
  have hterm : isTerminal t.status = true := by rw [hs]; decide
  have hloop : pollLoop responses (responses 0) 0 60 = (some t, 0) :=
    pollLoop_first_terminal responses 0 t
      (fun k hk => absurd hk (Nat.not_lt_zero k)) h0 hterm 60 0
      (Nat.le_refl 0) (by omega)
  have hcls := classify_some_ready t "new-conv-999" hs hid (by decide)
  have h1 : jsTruthy (some oldId) = true := by simp [jsTruthy, hold]
  have h2 : jsTruthy (some sandboxId) = true := by simp [jsTruthy, hsand]
  constructor
  · simp [mutationFn, h1, h2, runPoller, hloop, hcls]
  · have hpath : ("/conversations/" ++ "new-conv-999" : String) =
        "/conversations/new-conv-999" := by decide
    simp [onSuccessTrace, hpath]

/-- Witness for C5: the concrete immediately-READY scenario. -/
theorem immediate_ready_single_fetch_witness :
    mutationFn (some ⟨some "conv-123", some "sandbox-456"⟩)
        ⟨"task-789", readyResponses⟩ =
      ⟨MutationResult.success "new-conv-999" "conv-123", 1, 1⟩ ∧
    Effect.navigate "/conversations/new-conv-999" ∈
      (onSuccessTrace "new-conv-999" "conv-123" (Except.ok ())).1 :=
  immediate_ready_single_fetch readyResponses readyTask "conv-123"
    "sandbox-456" "task-789" (Except.ok ()) rfl rfl rfl (by decide) (by decide)

/-- C6: however the best-effort deletion settles, the background chain of
`onSuccess` settles fulfilled (the error is swallowed by the catch of
line 84), the emitted effects are the same as in the successful-deletion
case, and the navigation to the new conversation is among them. -/
theorem deletion_failure_suppressed (newConversationId oldConversationId : String)
    (deleteResult : Except String Unit) :
    (onSuccessTrace newConversationId oldConversationId deleteResult).2 =
      Except.ok () ∧
    (onSuccessTrace newConversationId oldConversationId deleteResult).1 =
      (onSuccessTrace newConversationId oldConversationId (Except.ok ())).1 ∧
    Effect.navigate ("/conversations/" ++ newConversationId) ∈
      (onSuccessTrace newConversationId oldConversationId deleteResult).1 := by
  cases deleteResult with
  | ok u => simp [onSuccessTrace, promiseCatch, promiseFinally]
  | error e => simp [onSuccessTrace, promiseCatch, promiseFinally]

/-- C7: any repository-selection change resets the chosen branch to `none`
(and records the new repository selection), and closing the modal resets
both selections to `none`. -/
theorem repo_change_resets_branch_close_resets_both (s : ModalState)
    (repository : Option GitRepository) :
    (handleRepositoryChange s repository).selectedBranch = none ∧
    (handleRepositoryChange s repository).selectedRepository = repository ∧
    (handleClose s).state.selectedRepository = none ∧
    (handleClose s).state.selectedBranch = none := by
  cases repository <;> simp [handleRepositoryChange, handleClose]

/-- C8: `onLaunch` is invoked only with the currently selected pair, so only
when both selections are non-null; when either selection is null, pressing
launch changes nothing, launches nothing, and does not close the modal. -/
theorem launch_requires_both_selections (s : ModalState) :
    (∀ p : GitRepository × Branch, (handleLaunch s).launched = some p →
        s.selectedRepository = some p.1 ∧ s.selectedBranch = some p.2) ∧
    (s.selectedRepository = none ∨ s.selectedBranch = none →
        handleLaunch s = ⟨s, none, false⟩) := by
  rcases s with ⟨r, b⟩
  cases r <;> cases b <;> simp [handleLaunch]

/-- Witness for C8: with nothing selected, launch is a no-op. -/
theorem launch_requires_both_selections_witness :
    handleLaunch ⟨none, none⟩ = ⟨⟨none, none⟩, none, false⟩ :=
  (launch_requires_both_selections ⟨none, none⟩).2 (Or.inl rfl)

/-- C9: both cache invalidations are emitted by the `onSuccess` continuation
whatever the settlement of the best-effort deletion, because they run in the
finally continuation of the deletion chain. -/
theorem invalidations_run_regardless (newConversationId oldConversationId : String)
    (deleteResult : Except String Unit) :
    Effect.invalidateQueries ["user", "conversations"] ∈
      (onSuccessTrace newConversationId oldConversationId deleteResult).1 ∧
    Effect.invalidateQueries ["v1-batch-get-app-conversations"] ∈
      (onSuccessTrace newConversationId oldConversationId deleteResult).1 := by
  cases deleteResult with
  | ok u =>
      simp [onSuccessTrace, promiseCatch, promiseFinally, invalidationEffects]
  | error e =>
      simp [onSuccessTrace, promiseCatch, promiseFinally, invalidationEffects]

/-- C10: a successful launch (both selections non-null) hands the pair to
`onLaunch`, resets both selections to `none`, and closes the modal. -/
theorem successful_launch_resets_and_closes (s : ModalState)
    (r : GitRepository) (b : Branch)
    (hr : s.selectedRepository = some r) (hb : s.selectedBranch = some b) :
    handleLaunch s = ⟨⟨none, none⟩, some (r, b), true⟩ := by
  rcases s with ⟨sr, sb⟩
  obtain rfl : sr = some r := hr
  obtain rfl : sb = some b := hb
  rfl

/-- Witness for C10: launching with a concrete repository and branch resets
the state and closes the modal. -/
theorem successful_launch_resets_and_closes_witness :
    handleLaunch ⟨some sampleRepository, some sampleBranch⟩ =
      ⟨⟨none, none⟩, some (sampleRepository, sampleBranch), true⟩ :=
  successful_launch_resets_and_closes
    ⟨some sampleRepository, some sampleBranch⟩ sampleRepository sampleBranch
    rfl rfl

end OpenHands
